import Mathlib

/-!
# Verification of the weasel.js popup / menu core

Shallow embedding of the coordination core of `gristlabs/weasel.js`:
the popup lifecycle controller (`src/lib/popup.ts`), the menu selection
state machine (`src/lib/menu.ts`), and the select type-ahead key state
(`src/lib/select.ts`).

Conventions used throughout:
* DOM elements that act as menu children are modelled by their index in the
  list of direct children of the menu container; an element's attributes
  relevant to selection (`tabIndex` presence, the `disabled` css class,
  `offsetHeight`) are carried in an `MItem` record.
* `setTimeout` timers become explicit state fields plus separate "timer
  fires" events, so a trace interleaves calls and timer firings exactly as
  the single-threaded event loop does.
* The grainjs `Holder` used by `PopupControl` owns at most one disposable:
  storing a new one disposes the previous one.  This external collaborator
  is modelled at the boundary described by the repository's documentation.
-/

namespace Weasel

/-! ## Popup lifecycle controller (`src/lib/popup.ts`)

`PState` models the mutable state of one `PopupControl` together with a
ghost log of sessions.  Fields `openT` and `closeT` model the `_openTimer`
and `_closeTimer` fields (`some`/armed as `true`).  `sess` models the
`Holder<OpenPopupHelper>` content.  Ghost fields: `live` lists ids of
`OpenPopupHelper` instances created and not yet disposed, `marks` lists ids
of sessions whose `weasel-popup-open` css marker (set by `setOpenClass` on
the trigger element) is currently applied, `created` logs every session
ever successfully created, and `thrown` counts exceptions propagated out
of the content-producing `openFunc`. -/

structure PState where
  openT : Bool
  closeT : Bool
  sess : Option Nat
  nextId : Nat
  live : List Nat
  marks : List Nat
  created : List Nat
  thrown : Nat
deriving DecidableEq, Repr

/-- The state of a freshly constructed `PopupControl`: holder empty, no
timers pending, no sessions ever created. -/
def PState.init : PState :=
  { openT := false, closeT := false, sess := none, nextId := 0,
    live := [], marks := [], created := [], thrown := 0 }

/-- Dispose the session currently held by the `Holder` (if any): the
`OpenPopupHelper` leaves the live set and its disposers remove the
`weasel-popup-open` marker. -/
def disposeSess (s : PState) : PState :=
  match s.sess with
  | none => s
  | some k => { s with sess := none, live := s.live.erase k, marks := s.marks.erase k }

/-- The `_open` callback of `PopupControl.attachElem` firing: it clears
`_openTimer` and runs `OpenPopupHelper.create(this._holder, ...)`.  The
parameter `ok` says whether the content-producing `openFunc` returns
normally (`true`) or throws (`false`).  On success the holder stores the
new helper, disposing any previous one; the helper mounts content and
applies the open-marker class.  On a throw, the exception propagates out
of the timer callback: no session is stored and no marker applied. -/
def doOpen (s : PState) (ok : Bool) : PState :=
  if ok then
    let s2 := disposeSess { s with openT := false }
    { s2 with sess := some s2.nextId, nextId := s2.nextId + 1,
              live := s2.live ++ [s2.nextId], marks := s2.marks ++ [s2.nextId],
              created := s2.created ++ [s2.nextId] }
  else
    { s with openT := false, thrown := s.thrown + 1 }

/-- The `_close` callback firing: clears `_closeTimer` and clears the
holder (disposing the current session, if any). -/
def doClose (s : PState) : PState :=
  disposeSess { s with closeT := false }

/-- Model of `PopupControl.open(options, reopen)`: cancel a pending delayed close,
then, if `reopen` or (holder empty and no open timer pending), schedule
`_open` after the show delay (arm the open timer). -/
def openCall (s : PState) (reopen : Bool) : PState :=
  if reopen || (s.sess = none && !s.openT) then { s with closeT := false, openT := true }
  else { s with closeT := false }

/-- Model of `PopupControl.close(delayMs)`: cancel a pending delayed open, then
schedule `_close` after the hide delay (arm the close timer). -/
def closeCall (s : PState) : PState :=
  { s with openT := false, closeT := true }

/-- Model of `PopupControl.toggle()`: `open({}, true)` when the holder is empty,
else `close()`. -/
def toggleCall (s : PState) : PState :=
  if s.sess = none then openCall s true else closeCall s

/-- Events driving one `PopupControl`: the three public calls plus the two
timer firings.  A fire event for a timer that is not armed is a no-op
(the corresponding `setTimeout` was cancelled). -/
inductive PEvent where
  | openEv (reopen : Bool)
  | closeEv
  | toggleEv
  | fireOpen (ok : Bool)
  | fireClose
deriving DecidableEq, Repr

/-- One step of the popup controller. -/
def pstep (s : PState) : PEvent → PState
  | .openEv reopen => openCall s reopen
  | .closeEv => closeCall s
  | .toggleEv => toggleCall s
  | .fireOpen ok => if s.openT then doOpen s ok else s
  | .fireClose => if s.closeT then doClose s else s

/-- Run a sequence of popup events from a state. -/
def prun (s : PState) (evs : List PEvent) : PState :=
  evs.foldl pstep s

/-! ## Attach-container resolution (`_getContainer` in `src/lib/popup.ts`)

A document element is modelled by its chain of nodes from itself to the
root: the head is the element itself, the tail its ancestors.  Each node
carries the list of css selectors it matches. -/

/-- An element together with its ancestor chain; `[]` is not an element
(every element is a nonempty chain).  Node data = selectors matched. -/
abbrev DomChain := List (List String)

/-- Model of `elem.closest(sel)`: the nearest ancestor-or-self matching `sel`. -/
def closestSel (sel : String) : DomChain → Option DomChain
  | [] => none
  | n :: rest => if sel ∈ n then some (n :: rest) else closestSel sel rest

/-- Model of `elem.parentNode` (as an element chain; `none` for a detached root). -/
def parentNode : DomChain → Option DomChain
  | [] => none
  | _ :: rest => if rest = [] then none else some rest

/-- The `attach` option: `Element | string | null`. -/
inductive Attach where
  | elemTarget (c : DomChain)
  | selector (s : String)
  | nul
deriving DecidableEq, Repr

/-- Model of `_getContainer(elem, attachElem)` from `src/lib/popup.ts`:
`(typeof attachElem === 'string') ? elem.closest(attachElem) :
(attachElem || elem.parentNode)`.  The `OpenPopupHelper` constructor
appends the popup content to this node iff the result is non-null; when it
is null the content is not mounted anywhere (the open still proceeds). -/
def getContainer (elem : DomChain) (attach : Attach) : Option DomChain :=
  match attach with
  | .selector s => closestSel s elem
  | .elemTarget c => some c
  | .nul => parentNode elem

/-! ## Menu selection state machine (`src/lib/menu.ts`)

Direct children of the `cssMenu` container are modelled as a list of
`MItem` records; an element reference is its index in that list. -/

/-- A direct child of the menu container, with the attributes consulted by
`isSelectable` and the click handlers, plus whether a `menuItemSelected`
data callback is bound to it (as `menuItemSubmenu` does). -/
structure MItem where
  hasTabIndex : Bool
  disabledCls : Bool
  offsetHeight : Nat
  hasSelCallback : Bool
deriving DecidableEq, Repr

/-- Model of `isSelectable(elem)` from `src/lib/menu.ts`: has a `tabIndex`
attribute, no `disabled` css class, and a positive `offsetHeight`. -/
def isSelectable (it : MItem) : Bool :=
  it.hasTabIndex && !it.disabledCls && decide (0 < it.offsetHeight)

/-- Predicate `isSelectable` applied through a child index (out-of-range indices
denote no element, hence not selectable). -/
def selectableAt (items : List MItem) (j : Nat) : Bool :=
  match items.get? j with
  | some it => isSelectable it
  | none => false

/-- Sibling step `elem.nextElementSibling || firstElementChild` used by
`BaseMenu.nextIndex`: `(elem && elem.nextElementSibling) ||
this._menuContent.firstElementChild`. -/
def nextGetNext (items : List MItem) (e : Option Nat) : Option Nat :=
  let firstChild : Option Nat := if items.isEmpty then none else some 0
  match e with
  | some j => if j + 1 < items.length then some (j + 1) else firstChild
  | none => firstChild

/-- Sibling step `elem.previousElementSibling || lastElementChild` used by
`BaseMenu.prevIndex`. -/
def prevGetNext (items : List MItem) (e : Option Nat) : Option Nat :=
  let lastChild : Option Nat := if items.isEmpty then none else some (items.length - 1)
  match e with
  | some j => if 0 < j then some (j - 1) else lastChild
  | none => lastChild

/-- The `while` loop of `getNextSelectable`, with explicit fuel:
`while (next && next !== startElem && !isSelectable(next)) next = getNext(next)`.
Result `none` means the loop has not exited within `fuel` iterations;
`some r` is the loop's return value `r`. -/
def gnsLoop (items : List MItem) (start : Option Nat)
    (getNext : Option Nat → Option Nat) : Option Nat → Nat → Option (Option Nat)
  | _, 0 => none
  | next, fuel + 1 =>
    match next with
    | none => some none
    | some j =>
      if some j = start then some (some j)
      else if selectableAt items j then some (some j)
      else gnsLoop items start getNext (getNext (some j)) fuel

/-- Model of `getNextSelectable(startElem, getNext)` from `src/lib/menu.ts`, with
explicit fuel for the unbounded source loop. -/
def getNextSelectable (items : List MItem) (start : Option Nat)
    (getNext : Option Nat → Option Nat) (fuel : Nat) : Option (Option Nat) :=
  gnsLoop items start getNext (getNext start) fuel

/-- Observable effects of `BaseMenu.setSelected`. -/
inductive MEffect where
  | selCallback (i : Nat) (yesNo : Bool)
  | classRemoveSel (i : Nat)
  | classAddSel (i : Nat)
  | focusItem (i : Nat)
  | focusMenu
deriving DecidableEq, Repr

/-- Whether child `i` has a `menuItemSelected` data callback bound. -/
def hasCb (items : List MItem) (i : Nat) : Bool :=
  match items.get? i with
  | some it => it.hasSelCallback
  | none => false

/-- The selection state of one `BaseMenu`. -/
structure MState where
  items : List MItem
  selected : Option Nat
deriving DecidableEq, Repr

/-- Model of `BaseMenu.setSelected(elem)`: if `elem === this._selected` return
immediately; otherwise fire the previous item's callback with `false` and
remove its `-sel` class, fire the new item's callback with `true` and add
its `-sel` class, store the selection, and focus the new item (or the menu
container when deselecting). -/
def setSelected (s : MState) (elem : Option Nat) : MState × List MEffect :=
  if elem = s.selected then (s, [])
  else
    let effPrev : List MEffect :=
      match s.selected with
      | some p => (if hasCb s.items p then [.selCallback p false] else []) ++ [.classRemoveSel p]
      | none => []
    let effNew : List MEffect :=
      match elem with
      | some e => (if hasCb s.items e then [.selCallback e true] else []) ++ [.classAddSel e]
      | none => []
    let focusEff : MEffect :=
      match elem with
      | some e => .focusItem e
      | none => .focusMenu
    ({ s with selected := elem }, effPrev ++ effNew ++ [focusEff])

/-- Model of `BaseMenu.nextIndex()`: run `getNextSelectable` with the
next-sibling-or-first step; if it returns an element, select it.  `none`
means the source loop diverged (never exited within `fuel`). -/
def nextIndex (s : MState) (fuel : Nat) : Option (MState × List MEffect) :=
  match getNextSelectable s.items s.selected (nextGetNext s.items) fuel with
  | none => none
  | some none => some (s, [])
  | some (some j) => some (setSelected s (some j))

/-- Model of `BaseMenu.prevIndex()`: as `nextIndex` with the
previous-sibling-or-last step. -/
def prevIndex (s : MState) (fuel : Nat) : Option (MState × List MEffect) :=
  match getNextSelectable s.items s.selected (prevGetNext s.items) fuel with
  | none => none
  | some none => some (s, [])
  | some (some j) => some (setSelected s (some j))

/-- The `menuItemSelected` callback installed by `menuItemSubmenu`:
`(yesNo) => yesNo || ctl.close()`.  Returns whether `ctl.close()` is
invoked on the submenu's popup controller. -/
def submenuSelCallbackCloses (yesNo : Bool) : Bool :=
  !yesNo

/-- Number of times the item's action runs when a click lands on a menu
item built by `menuItem(action, ...)`: the handler is
`(ev, elem) => elem.classList.contains('disabled') || action()`. -/
def menuItemClickActionCount (it : MItem) : Nat :=
  if it.disabledCls then 0 else 1

/-- Number of times the owning popup is asked to close when that same
click bubbles to the `cssMenuWrap` handler of `BaseMenu`:
`(ev) => isInSelectableItem(ev.target) ? ctl.close(0) : ev.stopPropagation()`.
For a click whose target is a direct child of the menu container,
`isInSelectableItem` reduces to `isSelectable` of that child. -/
def menuClickCloseCount (it : MItem) : Nat :=
  if isSelectable it then 1 else 0

/-! ## Select type-ahead (`SelectKeyState` in `src/lib/select.ts`) -/

/-- An `IOptionFull<string>` as used by the `Select` class (`label` and
`value` coincide for string options; only `label` and `disabled` matter to
the key search). -/
structure OptF where
  label : String
  disabled : Bool
deriving DecidableEq, Repr

/-- String lowercasing (`toLowerCase()`), character by character. -/
def strToLower (s : String) : String :=
  ⟨s.data.map Char.toLower⟩

/-- String prefix test (`s.startsWith(p)`). -/
def strStartsWith (s p : String) : Bool :=
  p.data.isPrefixOf s.data

/-- The mutable state of `SelectKeyState`: the typed term, the cycle
index, and whether the 1000 ms reset timeout is armed. -/
structure KeyState where
  term : String
  cycleIndex : Nat
  timerArmed : Bool
deriving DecidableEq, Repr

/-- The initial `SelectKeyState`. -/
def KeyState.init : KeyState :=
  { term := "", cycleIndex := 0, timerArmed := false }

/-- Model of `SelectKeyState.add(char)`: keys longer than one character are
rejected before anything else (the timeout is not touched); otherwise the
key is lowercased, the 1000 ms reset timeout is re-armed, the term/cycle
state is updated (repeat of a single-character term bumps the cycle index,
anything else appends and resets it), and the first match among enabled
options whose lowercased label starts with the term is returned, cycling
by `cycleIndex % ms.length`. -/
def keyAdd (items : List OptF) (s : KeyState) (key : String) : KeyState × Option OptF :=
  if key.length > 1 then (s, none)
  else
    let ch := strToLower key
    let s1 := { s with timerArmed := true }
    let s2 :=
      if s1.term.length = 1 && ch = s1.term then
        { s1 with cycleIndex := s1.cycleIndex + 1 }
      else
        { s1 with term := s1.term ++ ch, cycleIndex := 0 }
    let ms := items.filter fun it => !it.disabled && strStartsWith (strToLower it.label) s2.term
    if ms.length > 0 then
      let s3 := { s2 with cycleIndex := s2.cycleIndex % ms.length }
      (s3, ms.get? s3.cycleIndex)
    else
      (s2, none)

/-- The 1000 ms timeout of `SelectKeyState` firing:
`() => { this._term = ""; }` (the cycle index is not reset). -/
def keyTimeout (s : KeyState) : KeyState :=
  { s with term := "", timerArmed := false }

/-! ## Helper invariants and lemmas -/

/-- The `Holder` invariant: the ghost set of live (undisposed) sessions is
exactly the content of the holder. -/
def HolderInv (s : PState) : Prop :=
  match s.sess with
  | none => s.live = []
  | some k => s.live = [k]

theorem disposeSess_timers (s : PState) :
    (disposeSess s).openT = s.openT ∧ (disposeSess s).closeT = s.closeT := by
  unfold disposeSess
  rcases hs : s.sess with _ | k <;> simp

theorem disposeSess_holder (s : PState) (h : HolderInv s) :
    (disposeSess s).sess = none ∧ (disposeSess s).live = [] := by
  unfold disposeSess
  rcases hs : s.sess with _ | k <;> simp only [HolderInv, hs] at h <;> simp [hs, h]

theorem openCall_fields (s : PState) (r : Bool) :
    (openCall s r).sess = s.sess ∧ (openCall s r).live = s.live ∧
    (openCall s r).closeT = false ∧ (openCall s r).created = s.created := by
  unfold openCall
  split <;> simp

theorem closeCall_fields (s : PState) :
    (closeCall s).sess = s.sess ∧ (closeCall s).live = s.live ∧
    (closeCall s).openT = false ∧ (closeCall s).created = s.created := by
  unfold closeCall
  simp

theorem doOpen_holder (s : PState) (ok : Bool) (h : HolderInv s) :
    HolderInv (doOpen s ok) := by
  unfold doOpen
  split
  · have h1 : HolderInv { s with openT := false } := by
      rcases hs : s.sess with _ | k <;> simp only [HolderInv, hs] at h ⊢ <;> exact h
    obtain ⟨h2, h3⟩ := disposeSess_holder _ h1
    simp [HolderInv, h3]
  · rcases hs : s.sess with _ | k <;> simp only [HolderInv, hs] at h ⊢ <;> exact h

theorem doOpen_openT (s : PState) (ok : Bool) : (doOpen s ok).openT = false := by
  unfold doOpen
  split
  · simpa using (disposeSess_timers { s with openT := false }).1
  · rfl

theorem doClose_holder (s : PState) (h : HolderInv s) : HolderInv (doClose s) := by
  unfold doClose
  have h1 : HolderInv { s with closeT := false } := by
    rcases hs : s.sess with _ | k <;> simp only [HolderInv, hs] at h ⊢ <;> exact h
  obtain ⟨h2, h3⟩ := disposeSess_holder _ h1
  simp [HolderInv, h2, h3]

theorem doClose_closeT (s : PState) : (doClose s).closeT = false := by
  unfold doClose
  simpa using (disposeSess_timers { s with closeT := false }).2

theorem holderInv_pstep (s : PState) (e : PEvent) (h : HolderInv s) :
    HolderInv (pstep s e) := by
  have hfix : ∀ t : PState, t.sess = s.sess → t.live = s.live → HolderInv t := by
    intro t h1 h2
    rcases hs : s.sess with _ | k <;> simp only [HolderInv, hs] at h <;>
      simp only [HolderInv, h1, hs] <;> simpa [h2] using h
  have hopen : ∀ r, HolderInv (openCall s r) :=
    fun r => hfix _ (openCall_fields s r).1 (openCall_fields s r).2.1
  have hclose : HolderInv (closeCall s) :=
    hfix _ (closeCall_fields s).1 (closeCall_fields s).2.1
  cases e with
  | openEv r => exact hopen r
  | closeEv => exact hclose
  | toggleEv =>
    simp only [pstep, toggleCall]
    split
    · exact hopen true
    · exact hclose
  | fireOpen ok =>
    simp only [pstep]
    split
    · exact doOpen_holder s ok h
    · exact h
  | fireClose =>
    simp only [pstep]
    split
    · exact doClose_holder s h
    · exact h

theorem holderInv_prun (s : PState) (evs : List PEvent) (h : HolderInv s) :
    HolderInv (prun s evs) := by
  induction evs generalizing s with
  | nil => exact h
  | cons e rest ih => exact ih (pstep s e) (holderInv_pstep s e h)

/-- The timer mutual-exclusion invariant: `_openTimer` and `_closeTimer`
are never both pending. -/
def TimerInv (s : PState) : Prop :=
  s.openT = false ∨ s.closeT = false

theorem timerInv_pstep (s : PState) (e : PEvent) (h : TimerInv s) :
    TimerInv (pstep s e) := by
  cases e with
  | openEv r => exact Or.inr (openCall_fields s r).2.2.1
  | closeEv => exact Or.inl (closeCall_fields s).2.2.1
  | toggleEv =>
    simp only [pstep, toggleCall]
    split
    · exact Or.inr (openCall_fields s true).2.2.1
    · exact Or.inl (closeCall_fields s).2.2.1
  | fireOpen ok =>
    simp only [pstep]
    split
    · exact Or.inl (doOpen_openT s ok)
    · exact h
  | fireClose =>
    simp only [pstep]
    split
    · exact Or.inr (doClose_closeT s)
    · exact h

theorem timerInv_prun (s : PState) (evs : List PEvent) (h : TimerInv s) :
    TimerInv (prun s evs) := by
  induction evs generalizing s with
  | nil => exact h
  | cons e rest ih => exact ih (pstep s e) (timerInv_pstep s e h)

theorem closestSel_sound (sel : String) (e : DomChain) :
    ∀ c, closestSel sel e = some c → c <:+ e ∧ ∃ n rest, c = n :: rest ∧ sel ∈ n := by
  induction e with
  | nil => intro c h; simp [closestSel] at h
  | cons n rest ih =>
    intro c h
    by_cases hn : sel ∈ n
    · rw [closestSel, if_pos hn] at h
      obtain rfl : (n :: rest : DomChain) = c := Option.some.inj h
      exact ⟨List.suffix_refl _, n, rest, rfl, hn⟩
    · rw [closestSel, if_neg hn] at h
      obtain ⟨h1, h2⟩ := ih c h
      exact ⟨h1.trans (List.suffix_cons n rest), h2⟩

theorem closestSel_none_iff (sel : String) (e : DomChain) :
    closestSel sel e = none ↔ ∀ n ∈ e, sel ∉ n := by
  induction e with
  | nil => simp [closestSel]
  | cons n rest ih =>
    by_cases hn : sel ∈ n
    · simp [closestSel, hn]
    · simp [closestSel, hn, ih]

/-! ## Claim theorems -/

/-- C1: for every sequence of `open`/`close`/`toggle` calls and timer
firings on a single `PopupControl` (including `open` with
`forceReopen = true`, where the `Holder` disposes the current session as
the new one replaces it), at most one open popup session exists at any
instant: the set of live (created and undisposed) `OpenPopupHelper`
instances never holds more than one element. -/
theorem popup_at_most_one_session :
    ∀ evs : List PEvent, (prun PState.init evs).live.length ≤ 1 := by
  intro evs
  have h := holderInv_prun PState.init evs (by simp [HolderInv, PState.init])
  rcases hs : (prun PState.init evs).sess with _ | k <;>
    simp only [HolderInv, hs] at h <;> simp [h]

/-- C2: (a) `open()` then `close()` before the show-delay timer fires
leaves the controller sessionless with the open timer cancelled and no
session ever created (the `created` log is unchanged, even after the close
timer fires); (b) `close()` then `open()` before the hide-delay timer
fires leaves the original open session intact with both timers clear;
(c) the open timer and the close timer are never simultaneously pending in
any reachable state. -/
theorem popup_delay_cancellation :
    (∀ s : PState, s.sess = none →
      (prun s [.openEv false, .closeEv]).sess = none ∧
      (prun s [.openEv false, .closeEv]).openT = false ∧
      (prun s [.openEv false, .closeEv]).created = s.created ∧
      (pstep (prun s [.openEv false, .closeEv]) .fireClose).sess = none ∧
      (pstep (prun s [.openEv false, .closeEv]) .fireClose).created = s.created) ∧
    (∀ (s : PState) (k : Nat), s.sess = some k →
      (prun s [.closeEv, .openEv false]).sess = some k ∧
      (prun s [.closeEv, .openEv false]).live = s.live ∧
      (prun s [.closeEv, .openEv false]).created = s.created ∧
      (prun s [.closeEv, .openEv false]).openT = false ∧
      (prun s [.closeEv, .openEv false]).closeT = false) ∧
    (∀ evs : List PEvent,
      (prun PState.init evs).openT = false ∨ (prun PState.init evs).closeT = false) := by
  refine ⟨?_, ?_, ?_⟩
  · intro s hs
    by_cases ho : s.openT = true <;>
      simp [prun, pstep, openCall, closeCall, doClose, disposeSess, hs, ho]
  · intro s k hs
    simp [prun, pstep, openCall, closeCall, hs]
  · intro evs
    exact timerInv_prun PState.init evs (Or.inl rfl)

/-- Closed instantiation of `popup_delay_cancellation`: part (a) at the
initial (closed, idle) state, part (b) at the state reached by opening a
popup from it. -/
theorem popup_delay_cancellation_witness :
    ((prun PState.init [.openEv false, .closeEv]).sess = none ∧
      (prun PState.init [.openEv false, .closeEv]).openT = false ∧
      (prun PState.init [.openEv false, .closeEv]).created = PState.init.created ∧
      (pstep (prun PState.init [.openEv false, .closeEv]) .fireClose).sess = none ∧
      (pstep (prun PState.init [.openEv false, .closeEv]) .fireClose).created = PState.init.created) ∧
    ((prun (prun PState.init [.openEv false, .fireOpen true]) [.closeEv, .openEv false]).sess = some 0 ∧
      (prun (prun PState.init [.openEv false, .fireOpen true]) [.closeEv, .openEv false]).live =
        (prun PState.init [.openEv false, .fireOpen true]).live ∧
      (prun (prun PState.init [.openEv false, .fireOpen true]) [.closeEv, .openEv false]).created =
        (prun PState.init [.openEv false, .fireOpen true]).created ∧
      (prun (prun PState.init [.openEv false, .fireOpen true]) [.closeEv, .openEv false]).openT = false ∧
      (prun (prun PState.init [.openEv false, .fireOpen true]) [.closeEv, .openEv false]).closeT = false) ∧
    ((prun PState.init []).openT = false ∨ (prun PState.init []).closeT = false) :=
  ⟨popup_delay_cancellation.1 PState.init rfl,
   popup_delay_cancellation.2.1 (prun PState.init [.openEv false, .fireOpen true]) 0 (by decide),
   popup_delay_cancellation.2.2 []⟩

/-- C6 counterexample: with a content producer that throws, the `open()`
call itself completes without any exception surfacing to its caller (the
throw count stays 0 and an open timer is armed instead); the exception
surfaces only when the scheduled `_open` timer callback later fires.  This
refutes "the exception propagates synchronously to the caller of
`open()`": session creation is always deferred through `setTimeout`. -/
theorem popup_open_throw_async_counterexample :
    (prun PState.init [.openEv false]).thrown = 0 ∧
    (prun PState.init [.openEv false]).openT = true ∧
    (prun PState.init [.openEv false, .fireOpen false]).thrown = 1 := by
  decide

/-- C6 (amended): if the content producer throws when the deferred open
fires, the exception propagates out of that timer callback, and the
controller is returned exactly to its closed state — no session created,
no live session, no CSS open-marker applied, timers clear — as if `open`
had never been called (only the exception count differs). -/
theorem popup_open_throw_leaves_closed :
    ∀ s : PState, s.sess = none → s.openT = false → s.closeT = false →
      prun s [.openEv false, .fireOpen false] = { s with thrown := s.thrown + 1 } := by
  intro s h1 h2 h3
  obtain ⟨o, c, se, n, l, m, cr, t⟩ := s
  simp only at h1 h2 h3
  subst h1 h2 h3
  simp [prun, pstep, openCall, doOpen]

/-- Closed instantiation of `popup_open_throw_leaves_closed` at the
initial state. -/
theorem popup_open_throw_leaves_closed_witness :
    prun PState.init [.openEv false, .fireOpen false] = { PState.init with thrown := 1 } :=
  popup_open_throw_leaves_closed PState.init rfl rfl rfl

/-- C7 counterexample: for a trigger element (matching selector "item")
whose single ancestor matches only "root", resolving the attach container
for the selector "body" yields `none` — the content is then not mounted at
all — and not the trigger's parent, which exists and is returned by
`parentNode`.  This refutes the claimed fallback to the trigger's parent
when the attach selector matches no ancestor. -/
theorem attach_no_match_counterexample :
    getContainer [["item"], ["root"]] (.selector "body") = none ∧
    parentNode [["item"], ["root"]] = some [["root"]] ∧
    getContainer [["item"], ["root"]] (.selector "body") ≠ parentNode [["item"], ["root"]] := by
  refine ⟨rfl, ?_, ?_⟩ <;> simp [parentNode, getContainer, closestSel]

/-- C7 (amended): the attach container is resolved by case analysis on
the `attach` option — an explicit element resolves to itself, `null`
resolves to the trigger's parent node, and a selector string resolves to
the closest ancestor-or-self of the trigger matching that selector (the
result is a suffix of the trigger's ancestor chain whose head matches);
when no ancestor-or-self matches the selector, the resolved container is
`null` and the `OpenPopupHelper` constructor skips mounting the content
(the open proceeds without appending it) instead of falling back to the
trigger's parent. -/
theorem attach_container_resolution :
    ∀ e : DomChain,
      (∀ c, getContainer e (.elemTarget c) = some c) ∧
      getContainer e .nul = parentNode e ∧
      (∀ sel c, getContainer e (.selector sel) = some c →
        c <:+ e ∧ ∃ n rest, c = n :: rest ∧ sel ∈ n) ∧
      (∀ sel, getContainer e (.selector sel) = none ↔ ∀ n ∈ e, sel ∉ n) := by
  intro e
  refine ⟨fun c => rfl, rfl, fun sel c h => closestSel_sound sel e c h, fun sel => ?_⟩
  simpa [getContainer] using closestSel_none_iff sel e

theorem gnsLoop_sound (fuel : Nat) :
    ∀ (items : List MItem) (start : Option Nat) (gn : Option Nat → Option Nat)
      (next : Option Nat) (j : Nat),
      gnsLoop items start gn next fuel = some (some j) →
      some j = start ∨ selectableAt items j = true := by
  induction fuel with
  | zero => intro items start gn next j h; simp [gnsLoop] at h
  | succ n ih =>
    intro items start gn next j h
    match next with
    | none => simp [gnsLoop] at h
    | some j0 =>
      rw [gnsLoop] at h
      by_cases h1 : some j0 = start
      · rw [if_pos h1] at h
        obtain rfl : j0 = j := by simpa using h
        exact Or.inl h1
      · rw [if_neg h1] at h
        by_cases h2 : selectableAt items j0 = true
        · rw [if_pos h2] at h
          obtain rfl : j0 = j := by simpa using h
          exact Or.inr h2
        · rw [if_neg h2] at h
          exact ih items start gn _ j h

/-- C3: in any menu whose direct children are `[A, B, C]` with `A` and
`C` selectable and `B` not (e.g. disabled), starting from `A` selected one
`Next` transition selects `C` (skipping `B`) and a further `Next` wraps to
`A`; symmetrically `Prev` from `A` wraps to `C` and `Prev` from `C` skips
back to `A`.  Moreover a scan never selects a non-selectable child: any
element `getNextSelectable` returns is the start element itself (in which
case `setSelected` is a no-op) or satisfies `isSelectable`. -/
theorem menu_next_skips_disabled :
    (∀ a b c : MItem, isSelectable a = true → isSelectable b = false → isSelectable c = true →
      ((nextIndex ⟨[a, b, c], some 0⟩ 4).map fun r => r.1.selected) = some (some 2) ∧
      ((nextIndex ⟨[a, b, c], some 2⟩ 4).map fun r => r.1.selected) = some (some 0) ∧
      ((prevIndex ⟨[a, b, c], some 0⟩ 4).map fun r => r.1.selected) = some (some 2) ∧
      ((prevIndex ⟨[a, b, c], some 2⟩ 4).map fun r => r.1.selected) = some (some 0)) ∧
    (∀ (items : List MItem) (start : Option Nat) (gn : Option Nat → Option Nat)
      (fuel : Nat) (j : Nat),
      getNextSelectable items start gn fuel = some (some j) →
      some j = start ∨ selectableAt items j = true) := by
  constructor
  · intro a b c ha hb hc
    refine ⟨?_, ?_, ?_, ?_⟩ <;>
      simp [nextIndex, prevIndex, getNextSelectable, gnsLoop, nextGetNext, prevGetNext,
        selectableAt, setSelected, ha, hb, hc]
  · intro items start gn fuel j h
    exact gnsLoop_sound fuel items start gn _ j h

/-- Closed instantiation of `menu_next_skips_disabled` at a concrete
three-item menu with the middle item carrying the `disabled` class. -/
theorem menu_next_skips_disabled_witness :
    (((nextIndex ⟨[⟨true, false, 1, false⟩, ⟨true, true, 1, false⟩, ⟨true, false, 1, false⟩],
        some 0⟩ 4).map fun r => r.1.selected) = some (some 2) ∧
      ((nextIndex ⟨[⟨true, false, 1, false⟩, ⟨true, true, 1, false⟩, ⟨true, false, 1, false⟩],
        some 2⟩ 4).map fun r => r.1.selected) = some (some 0) ∧
      ((prevIndex ⟨[⟨true, false, 1, false⟩, ⟨true, true, 1, false⟩, ⟨true, false, 1, false⟩],
        some 0⟩ 4).map fun r => r.1.selected) = some (some 2) ∧
      ((prevIndex ⟨[⟨true, false, 1, false⟩, ⟨true, true, 1, false⟩, ⟨true, false, 1, false⟩],
        some 2⟩ 4).map fun r => r.1.selected) = some (some 0)) ∧
    (some 2 = (some 0 : Option Nat) ∨
      selectableAt [⟨true, false, 1, false⟩, ⟨true, true, 1, false⟩, ⟨true, false, 1, false⟩] 2 = true) :=
  ⟨menu_next_skips_disabled.1 _ _ _ (by decide) (by decide) (by decide),
   menu_next_skips_disabled.2 _ (some 0)
     (nextGetNext [⟨true, false, 1, false⟩, ⟨true, true, 1, false⟩, ⟨true, false, 1, false⟩])
     4 2 (by decide)⟩

/-- C4 (divergence at the failing input): on an empty menu a `Next`
request is a no-op as the claim states, but on a menu with no current
selection whose only child is unselectable (here: `tabindex` set but
carrying the `disabled` class), the `while` loop inside
`getNextSelectable` never exits — for every iteration bound the loop is
still running — because the `next !== startElem` guard can never hit a
`null` start element.  `BaseMenu.nextIndex` therefore never returns,
contradicting the claim (and the code's own comment "to prevent an
infinite loop"). -/
theorem menu_nav_all_unselectable_diverges :
    (∀ fuel : Nat, nextIndex ⟨[], none⟩ (fuel + 1) = some (⟨[], none⟩, [])) ∧
    (∀ fuel : Nat, nextIndex ⟨[⟨true, true, 1, false⟩], none⟩ fuel = none) := by
  constructor
  · intro fuel
    simp [nextIndex, getNextSelectable, gnsLoop, nextGetNext]
  · have key : ∀ fuel : Nat,
        gnsLoop [⟨true, true, 1, false⟩] none (nextGetNext [⟨true, true, 1, false⟩])
          (some 0) fuel = none := by
      intro fuel
      induction fuel with
      | zero => rfl
      | succ n ih =>
        rw [gnsLoop, if_neg (by simp), if_neg (by decide)]
        have h1 : nextGetNext [⟨true, true, 1, false⟩] (some 0) = some 0 := by decide
        rw [h1]
        exact ih
    intro fuel
    have h0 : nextGetNext [⟨true, true, 1, false⟩] none = some 0 := by decide
    unfold nextIndex getNextSelectable
    rw [h0, key fuel]

/-- C5: a click on a menu item that has a `tabIndex` attribute and a
positive rendered height runs the item's action zero times and requests
overlay close zero times when the item carries the `disabled` class (the
click is swallowed by `stopPropagation`), and runs the action exactly once
and requests close exactly once when it does not. -/
theorem menu_click_disabled_swallowed :
    ∀ it : MItem, it.hasTabIndex = true → 0 < it.offsetHeight →
      menuItemClickActionCount { it with disabledCls := true } = 0 ∧
      menuClickCloseCount { it with disabledCls := true } = 0 ∧
      menuItemClickActionCount { it with disabledCls := false } = 1 ∧
      menuClickCloseCount { it with disabledCls := false } = 1 := by
  intro it h1 h2
  simp [menuItemClickActionCount, menuClickCloseCount, isSelectable, h1, h2]

/-- Closed instantiation of `menu_click_disabled_swallowed` at a concrete
item. -/
theorem menu_click_disabled_swallowed_witness :
    menuItemClickActionCount ⟨true, true, 1, false⟩ = 0 ∧
    menuClickCloseCount ⟨true, true, 1, false⟩ = 0 ∧
    menuItemClickActionCount ⟨true, false, 1, false⟩ = 1 ∧
    menuClickCloseCount ⟨true, false, 1, false⟩ = 1 :=
  menu_click_disabled_swallowed ⟨true, false, 1, false⟩ rfl (by decide)

/-- C8: whenever the selection of a menu moves away from an item carrying
a `menuItemSelected` callback (as every `menuItemSubmenu` item does),
`setSelected` fires that callback with `false`; the `menuItemSubmenu`
callback `(yesNo) => yesNo || ctl.close()` then invokes `close()` on the
submenu's popup controller, and a close on an open controller disposes its
session once the hide timer fires. -/
theorem submenu_closes_when_deselected :
    ∀ (s : MState) (i : Nat) (t : Option Nat),
      s.selected = some i → hasCb s.items i = true → t ≠ some i →
      MEffect.selCallback i false ∈ (setSelected s t).2 ∧
      submenuSelCallbackCloses false = true ∧
      (∀ (p : PState) (k : Nat), p.sess = some k →
        (prun p [.closeEv, .fireClose]).sess = none) := by
  intro s i t h1 h2 h3
  refine ⟨?_, rfl, ?_⟩
  · unfold setSelected
    rw [if_neg (h1 ▸ h3)]
    simp [h1, h2]
  · intro p k hp
    simp [prun, pstep, closeCall, doClose, disposeSess, hp]

/-- Closed instantiation of `submenu_closes_when_deselected`: a two-item
menu whose first item owns a submenu, with selection moving to the second
item, and an open submenu controller holding session 7. -/
theorem submenu_closes_when_deselected_witness :
    MEffect.selCallback 0 false ∈
      (setSelected ⟨[⟨true, false, 1, true⟩, ⟨true, false, 1, false⟩], some 0⟩ (some 1)).2 ∧
    submenuSelCallbackCloses false = true ∧
    (prun { PState.init with sess := some 7, live := [7] } [.closeEv, .fireClose]).sess = none := by
  have h := submenu_closes_when_deselected
    ⟨[⟨true, false, 1, true⟩, ⟨true, false, 1, false⟩], some 0⟩ 0 (some 1) rfl rfl (by decide)
  exact ⟨h.1, h.2.1, h.2.2 { PState.init with sess := some 7, live := [7] } 7 rfl⟩

/-- C9: with enabled options `["apple", "apricot", "avocado"]`, pressing
"a" repeatedly within the timeout cycles the returned match through
apple, apricot, avocado and wraps back to apple; after the 1000 ms
inactivity timeout fires the search term is reset to empty, so the next
"a" matches the first "a" option (apple) again. -/
theorem select_typeahead_cycle :
    let opts : List OptF := [⟨"apple", false⟩, ⟨"apricot", false⟩, ⟨"avocado", false⟩]
    let r1 := keyAdd opts KeyState.init "a"
    let r2 := keyAdd opts r1.1 "a"
    let r3 := keyAdd opts r2.1 "a"
    let r4 := keyAdd opts r3.1 "a"
    let rReset := keyAdd opts (keyTimeout r3.1) "a"
    r1.2 = some ⟨"apple", false⟩ ∧ r2.2 = some ⟨"apricot", false⟩ ∧
    r3.2 = some ⟨"avocado", false⟩ ∧ r4.2 = some ⟨"apple", false⟩ ∧
    (keyTimeout r3.1).term = "" ∧ rReset.2 = some ⟨"apple", false⟩ := by
  decide

/-- C10: setting the selection to the element that is already selected
(including `null` when nothing is selected) is a complete no-op — the
state is unchanged and no effect (callback, css class change, or focus
move) is emitted. -/
theorem setSelected_self_noop :
    ∀ s : MState, setSelected s s.selected = (s, []) := by
  intro s
  simp [setSelected]

/-- Closed instantiation of `attach_container_resolution` on a concrete
two-node chain, with the selector conjunct applied to a matching and a
non-matching selector. -/
theorem attach_container_resolution_witness :
    getContainer [["item"], ["root"]] (.elemTarget [["x"]]) = some [["x"]] ∧
    getContainer [["item"], ["root"]] .nul = parentNode [["item"], ["root"]] ∧
    (([["item"], ["root"]] : DomChain) <:+ [["item"], ["root"]] ∧
      ∃ n rest, ([["item"], ["root"]] : DomChain) = n :: rest ∧ "item" ∈ n) ∧
    (getContainer [["item"], ["root"]] (.selector "body") = none ↔
      ∀ n ∈ ([["item"], ["root"]] : DomChain), "body" ∉ n) :=
  ⟨(attach_container_resolution _).1 _,
   (attach_container_resolution _).2.1,
   (attach_container_resolution _).2.2.1 "item" _ (by simp [getContainer, closestSel]),
   (attach_container_resolution _).2.2.2 "body"⟩

end Weasel
